import Mathlib

/-!
Verification of the iMA-Menu-Plugins desktop utilities.

This file shallowly embeds the parts of the repository needed to settle the
claims about it: the YT downloader (`YT/yt.pyw`), its CLI-driven variant, the
iMShare download and upload tools (`iMShare/download.pyw` and the upload
script), and the clipboard-based Imgur uploader.  Pure helpers become Lean
functions; the stateful download queue becomes an explicit state type with a
reachability relation; the croc output parser becomes a state-passing function
over classified lines.  Python floats are modelled with exact rationals; the
regex classification of a line is abstracted into an inductive type whose
constructors carry the captured groups, while each branch's behaviour follows
the source line by line.
-/

/-- Classification of the single external action a tool's core operation
performs.  Used to settle the architectural claims about what each tool
wraps. -/
inductive ExternalCall where
  /-- An in-process call into a Python library (module, function). -/
  | libraryCall (module fn : String)
  /-- Spawning an external process with the given argv. -/
  | subprocessSpawn (argv : List String)
  /-- An HTTP POST request to the given URL. -/
  | httpPost (url : String)
  /-- A direct OS file operation (move, rename, ...). -/
  | fileOp (desc : String)
  /-- An image-processing library call. -/
  | imageLibCall (fn : String)
deriving DecidableEq

/-- Whether the call spawns an external process. -/
def ExternalCall.isSubprocessSpawn : ExternalCall → Bool
  | .subprocessSpawn _ => true
  | _ => false

/-- Python `str.strip()`: drop leading and trailing whitespace.  (Defined
directly over the character list so that concrete inputs evaluate.) -/
def pyStrip (s : String) : String :=
  String.mk (((s.data.dropWhile Char.isWhitespace).reverse.dropWhile Char.isWhitespace).reverse)

namespace YT

/- ---------------------------------------------------------------------
`src/YT/yt.pyw`
--------------------------------------------------------------------- -/

/-- The characters removed by `sanitize_filename`
(`re.sub(r'[\\/*?"<>|]', "", filename)`, yt.pyw line 68). -/
def banned_filename_chars : List Char := ['\\', '/', '*', '?', '"', '<', '>', '|']

/-- Character-level behaviour of `re.sub(r'[\\/*?"<>|]', "", ·)`: every
occurrence of a character of the class is replaced by the empty string,
all other characters are kept. -/
def sanitize_chars : List Char → List Char
  | [] => []
  | c :: cs => if c ∈ banned_filename_chars then sanitize_chars cs else c :: sanitize_chars cs

/-- `sanitize_filename` from yt.pyw lines 67-68. -/
def sanitize_filename (s : String) : String := String.mk (sanitize_chars s.data)

theorem sanitize_chars_eq_filter (l : List Char) :
    sanitize_chars l = l.filter (fun c => decide (c ∉ banned_filename_chars)) := by
  induction l with
  | nil => rfl
  | cons c cs ih =>
    by_cases h : c ∈ banned_filename_chars <;>
      simp [sanitize_chars, List.filter, h, ih]

theorem sanitize_chars_no_banned (l : List Char) :
    ∀ c ∈ sanitize_chars l, c ∉ banned_filename_chars := by
  intro c hc
  rw [sanitize_chars_eq_filter] at hc
  have := List.of_mem_filter hc
  simpa using this

theorem sanitize_chars_idem (l : List Char) :
    sanitize_chars (sanitize_chars l) = sanitize_chars l := by
  induction l with
  | nil => rfl
  | cons c cs ih =>
    by_cases h : c ∈ banned_filename_chars <;>
      simp [sanitize_chars, h, ih]

/-- C8: `sanitize_filename` removes exactly the characters
`\\ / * ? " < > |`, keeps every other character of the input in its
original order, and is idempotent. -/
theorem sanitize_filename_spec (s : String) :
    (∀ c ∈ (sanitize_filename s).data, c ∉ banned_filename_chars) ∧
    (sanitize_filename s).data =
      s.data.filter (fun c => decide (c ∉ banned_filename_chars)) ∧
    sanitize_filename (sanitize_filename s) = sanitize_filename s := by
  refine ⟨sanitize_chars_no_banned s.data, sanitize_chars_eq_filter s.data, ?_⟩
  show String.mk (sanitize_chars (sanitize_chars s.data)) = String.mk (sanitize_chars s.data)
  rw [sanitize_chars_idem]

/-- Witness for `sanitize_filename_spec` at a concrete input. -/
theorem sanitize_filename_spec_witness :
    ('a' ∉ banned_filename_chars) ∧ sanitize_filename "a*b|c" = "abc" :=
  ⟨(sanitize_filename_spec "a*b|c").1 'a' (by decide), by decide⟩

/- ---------------------------------------------------------------------
`DownloadQueue` (yt.pyw lines 123-152).

The executor objects handed to `start_download` are identified by the
index of the `start_download` call that introduced them (its position in
the call sequence), so smaller ids mean earlier enqueueing; `arrivals`
counts the `start_download` calls made so far.
--------------------------------------------------------------------- -/

structure DQState where
  queue : List Nat
  running_downloads : Nat
  max_concurrent_downloads : Nat
  arrivals : Nat
deriving DecidableEq

/-- `DownloadQueue.start_download` (yt.pyw lines 131-141).  Returns the new
state and whether `executor.start()` was called. -/
def start_download (s : DQState) : DQState × Bool :=
  if s.running_downloads < s.max_concurrent_downloads then
    ({ s with running_downloads := s.running_downloads + 1, arrivals := s.arrivals + 1 }, true)
  else
    ({ s with queue := s.queue ++ [s.arrivals], arrivals := s.arrivals + 1 }, false)

/-- `DownloadQueue.on_executor_finished` (yt.pyw lines 142-152).  Returns the
new state and the waiting executor started next, if any. -/
def on_executor_finished (s : DQState) : DQState × Option Nat :=
  match s.queue with
  | [] => ({ s with running_downloads := s.running_downloads - 1 }, none)
  | e :: rest =>
      ({ s with queue := rest, running_downloads := s.running_downloads - 1 + 1 }, some e)

/-- States reachable from a fresh `DownloadQueue(max_concurrent_downloads)`
by any interleaving of `start_download` calls and finish notifications.
`on_executor_finished` only fires as the `finished` signal of an executor
that was started, hence its `0 < running_downloads` guard. -/
inductive Reachable : Nat → DQState → Prop where
  | init (max : Nat) : Reachable max ⟨[], 0, max, 0⟩
  | start {max : Nat} {s : DQState} :
      Reachable max s → Reachable max (start_download s).1
  | finish {max : Nat} {s : DQState} :
      Reachable max s → 0 < s.running_downloads →
      Reachable max (on_executor_finished s).1

theorem reachable_max_eq {max : Nat} {s : DQState} (h : Reachable max s) :
    s.max_concurrent_downloads = max := by
  induction h with
  | init => rfl
  | @start t h ih =>
    rw [start_download]
    split <;> simpa using ih
  | @finish t h hrun ih =>
    rcases hq : t.queue with _ | ⟨e, rest⟩ <;> simp [on_executor_finished, hq, ih]

/-- C1: in every reachable state the number of running downloads never
exceeds `max_concurrent_downloads`, and a `start_download` call made while
the limit is reached appends the executor to the waiting queue without
starting it. -/
theorem running_downloads_le_max {max : Nat} {s : DQState} (h : Reachable max s) :
    s.running_downloads ≤ s.max_concurrent_downloads ∧
    (s.running_downloads = s.max_concurrent_downloads →
      (start_download s).2 = false ∧
      (start_download s).1.queue = s.queue ++ [s.arrivals] ∧
      (start_download s).1.running_downloads = s.running_downloads) := by
  constructor
  · induction h with
    | init => exact Nat.zero_le _
    | @start t h ih =>
      rw [start_download]
      split
      · next hlt => simpa using hlt
      · simpa using ih
    | @finish t h hrun ih =>
      rcases hq : t.queue with _ | ⟨e, rest⟩
      · simp only [on_executor_finished, hq]
        exact Nat.le_trans (Nat.sub_le _ _) ih
      · simp only [on_executor_finished, hq]
        have heq : t.running_downloads - 1 + 1 = t.running_downloads :=
          Nat.succ_pred_eq_of_pos hrun
        simpa [heq] using ih
  · intro heq
    have hnot : ¬ s.running_downloads < s.max_concurrent_downloads := by
      rw [heq]; exact Nat.lt_irrefl _
    rw [start_download, if_neg hnot]
    exact ⟨rfl, rfl, rfl⟩

/-- Witness for `running_downloads_le_max`: with the limit 3 used by
`MainWindow.__init__` (yt.pyw line 254), three immediate starts saturate the
queue and a fourth `start_download` enqueues instead of starting. -/
theorem running_downloads_le_max_witness :
    (3 : Nat) ≤ 3 ∧
    (start_download ⟨[], 3, 3, 3⟩).2 = false ∧
    (start_download ⟨[], 3, 3, 3⟩).1.queue = [3] := by
  have hreach : Reachable 3 ⟨[], 3, 3, 3⟩ := by
    have h := Reachable.start (Reachable.start (Reachable.start (Reachable.init 3)))
    exact h
  have h := running_downloads_le_max hreach
  exact ⟨h.1, (h.2 rfl).1, by simpa using (h.2 rfl).2.1⟩

theorem reachable_queue_sorted {max : Nat} {s : DQState} (h : Reachable max s) :
    List.Pairwise (fun a b => a < b) s.queue ∧ ∀ x ∈ s.queue, x < s.arrivals := by
  induction h with
  | init => exact ⟨List.Pairwise.nil, by simp⟩
  | @start t h ih =>
    rw [start_download]
    split
    · refine ⟨by simpa using ih.1, ?_⟩
      intro x hx
      simp only at hx
      exact Nat.lt_succ_of_lt (ih.2 x hx)
    · constructor
      · simp only
        refine List.pairwise_append.mpr ⟨ih.1, List.pairwise_singleton _ _, ?_⟩
        intro x hx y hy
        simp only [List.mem_singleton] at hy
        subst hy
        exact ih.2 x hx
      · intro x hx
        simp only [List.mem_append, List.mem_singleton] at hx
        rcases hx with hx | hx
        · exact Nat.lt_succ_of_lt (ih.2 x hx)
        · subst hx; exact Nat.lt_succ_self _
  | @finish t h hrun ih =>
    rcases hq : t.queue with _ | ⟨e, rest⟩
    · simp only [on_executor_finished, hq]
      exact ⟨List.Pairwise.nil, by simp⟩
    · simp only [on_executor_finished, hq]
      have hp := ih.1
      rw [hq] at hp
      have hb := ih.2
      refine ⟨(List.pairwise_cons.mp hp).2, ?_⟩
      intro x hx
      exact hb x (by rw [hq]; exact List.mem_cons_of_mem _ hx)

/-- C10: the waiting queue is kept in strict arrival order, and when a
running download finishes with a non-empty waiting queue the executor
started next is the head, which was enqueued before every other waiting
executor. -/
theorem waiting_queue_fifo {max : Nat} {s : DQState} (h : Reachable max s) :
    List.Pairwise (fun a b => a < b) s.queue ∧
    ∀ e rest, s.queue = e :: rest →
      (on_executor_finished s).2 = some e ∧ ∀ x ∈ rest, e < x := by
  refine ⟨(reachable_queue_sorted h).1, ?_⟩
  intro e rest hq
  constructor
  · rw [on_executor_finished, hq]
  · have hp := (reachable_queue_sorted h).1
    rw [hq] at hp
    exact fun x hx => (List.pairwise_cons.mp hp).1 x hx

/-- Witness for `waiting_queue_fifo`: with limit 1, two executors wait in
arrival order and the earlier one (id 1) is started first. -/
theorem waiting_queue_fifo_witness :
    (on_executor_finished ⟨[1, 2], 1, 1, 3⟩).2 = some 1 ∧ ∀ x ∈ [2], 1 < x := by
  have hreach : Reachable 1 ⟨[1, 2], 1, 1, 3⟩ := by
    have h := Reachable.start (Reachable.start (Reachable.start (Reachable.init 1)))
    exact h
  exact (waiting_queue_fifo hreach).2 1 [2] rfl

end YT

namespace IMShareDownload

/- ---------------------------------------------------------------------
`src/iMShare/download.pyw`
--------------------------------------------------------------------- -/

/-- Python `int(...)` applied to a real value: truncation toward zero.
Python floats are modelled by exact rationals. -/
def pyInt (q : ℚ) : Int := if 0 ≤ q then ⌊q⌋ else ⌈q⌉

/-- The overall-progress computation of `DownloadWorker.parse_output_line`
for a multi-file transfer (download.pyw lines 186-189):
`progress_per_file = 100 / total_files`,
`completed_files_progress = (current_file_index - 1) * progress_per_file`,
`current_file_contribution = (current_file_progress / 100) * progress_per_file`,
`overall_progress = completed_files_progress + current_file_contribution`. -/
def overall_progress (current_file_progress current_file_index total_files : Nat) : ℚ :=
  let progress_per_file : ℚ := 100 / (total_files : ℚ)
  let completed_files_progress : ℚ := ((current_file_index : ℚ) - 1) * progress_per_file
  let current_file_contribution : ℚ :=
    ((current_file_progress : ℚ) / 100) * progress_per_file
  completed_files_progress + current_file_contribution

/-- The value emitted on `progress_signal` by the multi-file-progress branch
(download.pyw lines 185-192): `int(overall_progress)` when
`total_files > 1`, the per-file percentage unchanged otherwise. -/
def emitted_progress (current_file_progress current_file_index total_files : Nat) : Int :=
  if 1 < total_files then
    pyInt (overall_progress current_file_progress current_file_index total_files)
  else
    (current_file_progress : Int)

/-- A croc stdout line, classified by the regex cascade of
`DownloadWorker.parse_output_line` (download.pyw lines 160-204); each
constructor carries the captured groups of its pattern. -/
inductive CrocLine where
  /-- `Receiving (\d+) files \((.+)\)` (line 161). -/
  | receivingSummary (nfiles : Nat) (size : String)
  /-- `Accept '(.+)' \((.+)\)\?` (line 167). -/
  | acceptPrompt (name size : String)
  /-- `(.+?)\\` (line 172). -/
  | folderName (dir : String)
  /-- `(.+?)\s+(\d+)%\s+\|(.+?)\|\s+\((.+?),\s*(.+?)\)\s+(\d+)/(\d+)` (line 179). -/
  | uploadingProgress (name : String) (percent : Nat) (bar sizes speed : String)
      (idx total : Nat)
  /-- `file: (.+)` (line 197). -/
  | fileCreated (path : String)
  /-- A line matching none of the patterns. -/
  | unmatched (raw : String)
deriving DecidableEq

/-- A Qt signal emission performed by `DownloadWorker.parse_output_line`. -/
inductive Emission where
  | progress (v : Int)
  | speed (s : String)
  | statusUpdate (msg color : String)
  | timeRemaining (t : String)
  | fileNameSize (name size qid : String)
  | currentFile (name size : String)
deriving DecidableEq

/-- The mutable worker fields touched by `parse_output_line`
(`DownloadWorker.__init__`, download.pyw lines 116-130). -/
structure WorkerState where
  filename : String
  filesize : String
  total_files : Nat
  current_file_index : Nat
  is_hashing : Bool
  download_dir : Option String
  full_file_path : Option String
  path_exists : Bool
deriving DecidableEq

/-- Fresh worker state from `DownloadWorker.__init__`. -/
def initialWorkerState : WorkerState :=
  { filename := "File", filesize := "N/A", total_files := 1, current_file_index := 0,
    is_hashing := true, download_dir := none, full_file_path := none, path_exists := false }

/-- `os.path.join`, modelled as separator concatenation. -/
def joinPath (a b : String) : String := a ++ "/" ++ b

/-- `DownloadWorker.parse_output_line` (download.pyw lines 160-204) as a
state-passing function on classified lines.  `qid` is `self.queue_id`,
`cwd` the result of `os.getcwd()`, and `dirExists` / `fileExists` the
answers of `os.path.isdir` / `os.path.exists` for the paths probed by the
folder-name and file-created branches.  Returns the updated worker state
and the signal emissions of the branch taken, in source order. -/
def parse_output_line (qid cwd : String) (dirExists fileExists : Bool)
    (st : WorkerState) : CrocLine → WorkerState × List Emission
  | .receivingSummary nfiles size =>
      let fname := "Receiving " ++ toString nfiles ++ " files"
      let st2 := { st with total_files := nfiles, filesize := (pyStrip size), filename := fname }
      (st2, [.fileNameSize fname (pyStrip size) qid, .currentFile fname (pyStrip size)])
  | .acceptPrompt name size =>
      let st2 := { st with filename := (pyStrip name), filesize := (pyStrip size) }
      (st2, [.fileNameSize (pyStrip name) (pyStrip size) qid, .currentFile (pyStrip name) (pyStrip size)])
  | .folderName dir =>
      let d := (pyStrip dir)
      let st2 := { st with
        download_dir := some d
        full_file_path := some (joinPath cwd d)
        path_exists := dirExists
        filename := d }
      (st2, [.fileNameSize d st.filesize qid, .currentFile d st.filesize])
  | .uploadingProgress name percent _bar _sizes speed idx total =>
      let st2 := { st with
        filename := (pyStrip name)
        current_file_index := idx
        total_files := total
        is_hashing := false }
      (st2, [.progress (emitted_progress percent idx total), .speed (pyStrip speed),
             .statusUpdate "Downloading..." "yellow", .timeRemaining ""])
  | .fileCreated path =>
      if fileExists then
        ({ st with full_file_path := some (pyStrip path), path_exists := true }, [])
      else
        ({ st with full_file_path := none, path_exists := false }, [])
  | .unmatched _ => (st, [])

theorem overall_progress_eq (p idx total : Nat) (ht : (total : ℚ) ≠ 0) :
    overall_progress p idx total = (100 * ((idx : ℚ) - 1) + p) / total := by
  unfold overall_progress
  field_simp
  ring

/-- C2: on a line matched by the multi-file progress pattern, given
`0 ≤ percent ≤ 100` and `1 ≤ idx ≤ total`, the value emitted on
`progress_signal` is an integer between 0 and 100, and for a single-file
transfer (`total = 1`) the per-file percentage is emitted unchanged. -/
theorem emitted_progress_in_range (qid cwd : String) (dirExists fileExists : Bool)
    (st : WorkerState) (name bar sizes speed : String) (percent idx total : Nat)
    (hp : percent ≤ 100) (hidx : 1 ≤ idx) (hle : idx ≤ total) :
    ((parse_output_line qid cwd dirExists fileExists st
        (.uploadingProgress name percent bar sizes speed idx total)).2 =
      [.progress (emitted_progress percent idx total), .speed (pyStrip speed),
       .statusUpdate "Downloading..." "yellow", .timeRemaining ""]) ∧
    0 ≤ emitted_progress percent idx total ∧
    emitted_progress percent idx total ≤ 100 ∧
    (total = 1 → emitted_progress percent idx total = (percent : Int)) := by
  refine ⟨rfl, ?_, ?_, ?_⟩
  · unfold emitted_progress
    split
    · next h1 =>
      have htpos : (0 : ℚ) < (total : ℚ) := by exact_mod_cast Nat.lt_of_lt_of_le Nat.zero_lt_one (Nat.le_of_lt h1)
      have hnonneg : 0 ≤ overall_progress percent idx total := by
        rw [overall_progress_eq _ _ _ (ne_of_gt htpos)]
        apply div_nonneg _ (le_of_lt htpos)
        have : (1 : ℚ) ≤ (idx : ℚ) := by exact_mod_cast hidx
        nlinarith [Nat.cast_nonneg (α := ℚ) percent]
      rw [pyInt, if_pos hnonneg]
      exact Int.le_floor.mpr (by exact_mod_cast hnonneg)
    · exact Int.ofNat_nonneg percent
  · unfold emitted_progress
    split
    · next h1 =>
      have htpos : (0 : ℚ) < (total : ℚ) := by exact_mod_cast Nat.lt_of_lt_of_le Nat.zero_lt_one (Nat.le_of_lt h1)
      have hle100 : overall_progress percent idx total ≤ 100 := by
        rw [overall_progress_eq _ _ _ (ne_of_gt htpos)]
        rw [div_le_iff₀ htpos]
        have hpq : (percent : ℚ) ≤ 100 := by exact_mod_cast hp
        have hiq : (idx : ℚ) ≤ (total : ℚ) := by exact_mod_cast hle
        nlinarith
      have hnn : 0 ≤ overall_progress percent idx total ∨
          ¬ 0 ≤ overall_progress percent idx total := em _
      rcases hnn with hnn | hnn
      · rw [pyInt, if_pos hnn]
        have : (⌊overall_progress percent idx total⌋ : ℚ) ≤ 100 :=
          le_trans (Int.floor_le _) hle100
        exact_mod_cast this
      · rw [pyInt, if_neg hnn]
        have : overall_progress percent idx total ≤ 100 := hle100
        have hceil : ⌈overall_progress percent idx total⌉ ≤ ⌈(100 : ℚ)⌉ :=
          Int.ceil_le_ceil hle100
        simpa using hceil
    · exact_mod_cast hp
  · intro h1
    subst h1
    rw [emitted_progress, if_neg (by decide)]

/-- Witness for `emitted_progress_in_range`: file 2 of 3 at 50% gives an
overall progress of 50. -/
theorem emitted_progress_in_range_witness :
    0 ≤ emitted_progress 50 2 3 ∧ emitted_progress 50 2 3 ≤ 100 :=
  ⟨(emitted_progress_in_range "q" "c" false false initialWorkerState
      "f" "b" "s" "sp" 50 2 3 (by decide) (by decide) (by decide)).2.1,
   (emitted_progress_in_range "q" "c" false false initialWorkerState
      "f" "b" "s" "sp" 50 2 3 (by decide) (by decide) (by decide)).2.2.1⟩

end IMShareDownload

namespace IMShareDownload

/-- The strings emitted on `time_remaining_signal` while parsing a line.
The only `time_remaining_signal.emit` in `DownloadWorker` is in the
multi-file-progress branch (download.pyw line 196), and it emits `""`. -/
def time_remaining_emissions (qid cwd : String) (dirExists fileExists : Bool)
    (st : WorkerState) (l : CrocLine) : List String :=
  (parse_output_line qid cwd dirExists fileExists st l).2.filterMap
    (fun e => match e with
      | .timeRemaining t => some t
      | _ => none)

/-- `MainWindow.update_time_remaining` (download.pyw lines 642-643): the
slot connected to `time_remaining_signal` sets the label text to the
received string. -/
def update_time_remaining (time_remaining : String) : String := time_remaining

/-- C4 counterexample: no line parsed by the download tool ever emits a
non-empty string on `time_remaining_signal`; the single emission site
sends the empty string. -/
theorem no_eta_emitted :
    ¬ ∃ (qid cwd : String) (dirExists fileExists : Bool) (st : WorkerState)
        (l : CrocLine) (t : String),
        t ∈ time_remaining_emissions qid cwd dirExists fileExists st l ∧ t ≠ "" := by
  rintro ⟨qid, cwd, dE, fE, st, l, t, hmem, hne⟩
  apply hne
  cases l with
  | receivingSummary nfiles size =>
      simp [time_remaining_emissions, parse_output_line] at hmem
  | acceptPrompt name size =>
      simp [time_remaining_emissions, parse_output_line] at hmem
  | folderName dir =>
      simp [time_remaining_emissions, parse_output_line] at hmem
  | uploadingProgress name percent bar sizes speed idx total =>
      simpa [time_remaining_emissions, parse_output_line] using hmem
  | fileCreated path =>
      rcases hfe : fE with _ | _ <;>
        simp [time_remaining_emissions, parse_output_line, hfe] at hmem
  | unmatched raw =>
      simp [time_remaining_emissions, parse_output_line] at hmem

/-- C4 (amended): every string the download tool's parser emits on
`time_remaining_signal` is the empty string, and
`MainWindow.update_time_remaining` therefore always sets the
time-remaining label to the empty string; no ETA is derived. -/
theorem time_remaining_always_empty (qid cwd : String) (dirExists fileExists : Bool)
    (st : WorkerState) (l : CrocLine) (t : String)
    (hmem : t ∈ time_remaining_emissions qid cwd dirExists fileExists st l) :
    update_time_remaining t = "" := by
  by_contra hne
  exact no_eta_emitted ⟨qid, cwd, dirExists, fileExists, st, l, t, hmem, hne⟩

/-- Witness for `time_remaining_always_empty` at a concrete progress line. -/
theorem time_remaining_always_empty_witness :
    update_time_remaining "" = "" :=
  time_remaining_always_empty "q" "c" false false initialWorkerState
    (.uploadingProgress "a.txt" 10 "#" "1 MB" "2 MB/s" 1 2) "" (by decide)

/- ---------------------------------------------------------------------
Settings persistence (download.pyw lines 701-720, 727-739, 879-887).
--------------------------------------------------------------------- -/

/-- The keys of the iMShare settings dictionary stored in `iMShare.json`. -/
structure Settings where
  download_code : Option String
  friends : List String
deriving DecidableEq

/-- A missing key reads as absent (`settings.get(...)`). -/
def emptySettings : Settings := { download_code := none, friends := [] }

/-- `MainWindow.load_settings` (download.pyw lines 701-709): the config file
content if it exists, an empty dict otherwise.  `disk` models the content
of `iMShare.json` in the app-data directory (`none` = absent). -/
def load_settings : Option Settings → Settings
  | none => emptySettings
  | some st => st

/-- `MainWindow.save_code_to_json` (download.pyw lines 711-720): without a
config path it returns immediately; otherwise it stores the code in the
settings dict and writes the whole dict to `iMShare.json`.  Returns the
in-memory settings and the new file content. -/
def save_code_to_json (config_file : Bool) (st : Settings) (disk : Option Settings)
    (code : String) : Settings × Option Settings :=
  if config_file then
    let st2 := { st with download_code := some code }
    (st2, some st2)
  else (st, disk)

/-- `MainWindow.save_friends_to_json` (download.pyw lines 879-887). -/
def save_friends_to_json (config_file : Bool) (st : Settings) (disk : Option Settings)
    (friends : List String) : Settings × Option Settings :=
  if config_file then
    let st2 := { st with friends := friends }
    (st2, some st2)
  else (st, disk)

/-- `MainWindow.start_download` (download.pyw lines 727-739): an empty code
or an in-flight transfer aborts; otherwise the code is persisted via
`save_code_to_json` and the download is enqueued.  Returns the settings,
the file content and whether a download was enqueued. -/
def start_download (config_file : Bool) (st : Settings) (disk : Option Settings)
    (is_sending : Bool) (code : String) : Settings × Option Settings × Bool :=
  if (pyStrip code) = "" then (st, disk, false)
  else if is_sending then (st, disk, false)
  else
    let r := save_code_to_json config_file st disk (pyStrip code)
    (r.1, r.2, true)

/-- C6 counterexample: starting a download with code `abc123` (config path
available, disk initially empty) writes the settings to `iMShare.json`,
and a restarted `load_settings` reads them back — on-disk state survives
the restart. -/
theorem durable_storage_counterexample :
    (start_download true emptySettings none false "abc123").2.1 =
      some { download_code := some "abc123", friends := [] } ∧
    load_settings (start_download true emptySettings none false "abc123").2.1 ≠
      load_settings none := by
  exact ⟨by decide, by decide⟩

/-- C6 (amended): the iMShare tools do maintain durable storage — when a
config path is available, `save_code_to_json` and `save_friends_to_json`
write the settings as JSON to `iMShare.json`, and a restarted
`load_settings` returns exactly what was saved; without a config path
nothing is written. -/
theorem settings_round_trip (config_file : Bool) (st : Settings) (disk : Option Settings)
    (code : String) (friends : List String) :
    (config_file = true →
      load_settings (save_code_to_json config_file st disk code).2 =
        { st with download_code := some code } ∧
      load_settings (save_friends_to_json config_file st disk friends).2 =
        { st with friends := friends }) ∧
    (config_file = false →
      (save_code_to_json config_file st disk code).2 = disk ∧
      (save_friends_to_json config_file st disk friends).2 = disk) := by
  constructor
  · intro hc
    subst hc
    exact ⟨rfl, rfl⟩
  · intro hc
    subst hc
    exact ⟨rfl, rfl⟩

/-- Witness for `settings_round_trip` at a concrete save. -/
theorem settings_round_trip_witness :
    load_settings (save_code_to_json true emptySettings none "abc123").2 =
      { emptySettings with download_code := some "abc123" } :=
  ((settings_round_trip true emptySettings none "abc123" []).1 rfl).1

end IMShareDownload

namespace IMShareUpload

/- ---------------------------------------------------------------------
The iMShare upload script (`SendFileThread`, `SettingsPopup`,
`MainWindow`).
--------------------------------------------------------------------- -/

/-- The upload tool's settings dictionary (`iMShare.json`, key `code`). -/
structure USettings where
  code : Option String
deriving DecidableEq

/-- `MainWindow.save_code_to_json` (upload script lines 979-990): without a
config path nothing is written; otherwise the code is stored under the
`code` key and the dict is written to `iMShare.json`. -/
def save_code_to_json (config_file : Bool) (st : USettings) (disk : Option USettings)
    (code : String) : USettings × Option USettings :=
  if config_file then
    ({ code := some code }, some { code := some code })
  else (st, disk)

/-- The observable outcome of `SettingsPopup.save_settings`. -/
structure PopupResult where
  settings : USettings
  disk : Option USettings
  closed : Bool
  error_label : Option String
deriving DecidableEq

/-- `SettingsPopup.save_settings` (upload script lines 416-427): a code of
length 1-5 or one containing a space (`" " in code`, modelled as character
membership) sets the error label and keeps the dialog open; otherwise the
code — including the empty code — is persisted via `save_code_to_json`
and the dialog closes. -/
def save_settings (config_file : Bool) (st : USettings) (disk : Option USettings)
    (code : String) : PopupResult :=
  if 0 < code.length ∧ code.length < 6 then
    { settings := st, disk := disk, closed := false, error_label := some "6+ characters" }
  else if ' ' ∈ code.data then
    { settings := st, disk := disk, closed := false, error_label := some "No Space" }
  else
    let r := save_code_to_json config_file st disk code
    { settings := r.1, disk := r.2, closed := true, error_label := none }

theorem string_length_zero_eq_empty (s : String) (hs : s.length = 0) : s = "" := by
  cases s with
  | mk data =>
    cases data with
    | nil => rfl
    | cons c cs => simp [String.length] at hs

/-- C9: `save_settings` persists the code and closes the dialog exactly
when the code is empty or has length at least 6 without a space; otherwise
an error is shown and both the in-memory and on-disk settings are
unchanged.  The empty code is accepted. -/
theorem save_settings_accepts_iff (config_file : Bool) (st : USettings)
    (disk : Option USettings) (code : String) :
    ((save_settings config_file st disk code).closed = true ↔
      (code = "" ∨ (6 ≤ code.length ∧ ' ' ∉ code.data))) ∧
    ((save_settings config_file st disk code).closed = true → config_file = true →
      (save_settings config_file st disk code).disk = some { code := some code }) ∧
    ((save_settings config_file st disk code).closed = false →
      (save_settings config_file st disk code).settings = st ∧
      (save_settings config_file st disk code).disk = disk ∧
      (save_settings config_file st disk code).error_label ≠ none) ∧
    (save_settings config_file st disk "").closed = true := by
  have hself : ∀ (cf : Bool) (c : String),
      (save_settings cf st disk c).closed = true ↔
        (c = "" ∨ (6 ≤ c.length ∧ ' ' ∉ c.data)) := by
    intro cf c
    unfold save_settings
    by_cases h1 : 0 < c.length ∧ c.length < 6
    · rw [if_pos h1]
      simp only [Bool.false_eq_true, false_iff]
      rintro (hc | ⟨hlen, _⟩)
      · subst hc; simp at h1
      · omega
    · rw [if_neg h1]
      by_cases h2 : ' ' ∈ c.data
      · rw [if_pos h2]
        simp only [Bool.false_eq_true, false_iff]
        rintro (hc | ⟨_, hns⟩)
        · subst hc; simp at h2
        · exact hns h2
      · rw [if_neg h2]
        simp only [true_iff]
        rcases Nat.eq_zero_or_pos c.length with hz | hpos
        · exact Or.inl (string_length_zero_eq_empty c hz)
        · exact Or.inr ⟨by omega, h2⟩
  refine ⟨hself config_file code, ?_, ?_, ?_⟩
  · intro hclosed hcfg
    subst hcfg
    have hcond := (hself true code).mp hclosed
    unfold save_settings
    have h1 : ¬ (0 < code.length ∧ code.length < 6) := by
      rcases hcond with hc | ⟨hlen, _⟩
      · subst hc; simp
      · omega
    have h2 : ' ' ∉ code.data := by
      rcases hcond with hc | ⟨_, hns⟩
      · subst hc; simp
      · exact hns
    rw [if_neg h1, if_neg h2]
    rfl
  · intro hopen
    unfold save_settings at hopen ⊢
    by_cases h1 : 0 < code.length ∧ code.length < 6
    · rw [if_pos h1] at hopen ⊢
      exact ⟨rfl, rfl, by simp⟩
    · rw [if_neg h1] at hopen ⊢
      by_cases h2 : ' ' ∈ code.data
      · rw [if_pos h2] at hopen ⊢
        exact ⟨rfl, rfl, by simp⟩
      · rw [if_neg h2] at hopen
        simp at hopen
  · exact (hself config_file "").mpr (Or.inl rfl)

/-- Witness for `save_settings_accepts_iff`: a 7-character code is saved,
written to disk and the dialog closes. -/
theorem save_settings_accepts_iff_witness :
    (save_settings true ⟨none⟩ none "secret1").closed = true ∧
    (save_settings true ⟨none⟩ none "secret1").disk = some ⟨some "secret1"⟩ := by
  have h := save_settings_accepts_iff true ⟨none⟩ none "secret1"
  have hclosed : (save_settings true ⟨none⟩ none "secret1").closed = true :=
    h.1.mpr (Or.inr ⟨by decide, by decide⟩)
  exact ⟨hclosed, h.2.1 hclosed rfl⟩

end IMShareUpload

namespace YT

/- ---------------------------------------------------------------------
Download and conversion mechanisms of yt.pyw.
--------------------------------------------------------------------- -/

/-- The action by which `DownloadThread.run` performs a download
(yt.pyw lines 43-44): `yt_dlp.YoutubeDL(self.ydl_opts)` followed by
`ydl.extract_info(self.url, download=True)` — an in-process library
call. -/
def extract_info_call : ExternalCall := .libraryCall "yt_dlp" "YoutubeDL.extract_info"

/-- The argv run by `FFmpegCheckThread.run` (yt.pyw line 208), the only
direct ffmpeg invocation in yt.pyw. -/
def ffmpeg_check_command : List String := ["ffmpeg", "-version"]

/-- The yt-dlp option dictionary assembled by `MainWindow.start_download`
(yt.pyw lines 516-532).  A postprocessor entry is (key, preferredcodec). -/
structure YdlOpts where
  outtmpl : String
  noplaylist : Bool
  no_warnings : Bool
  quiet : Bool
  format : String
  postprocessors : List (String × String)
  merge_output_format : Option String
deriving DecidableEq

/-- `ydl_opts` as built by `MainWindow.start_download` for an audio or a
video download (yt.pyw lines 516-532). -/
def build_ydl_opts (is_audio : Bool) (audio_quality video_quality output_template : String) :
    YdlOpts :=
  if is_audio then
    { outtmpl := output_template, noplaylist := true, no_warnings := true, quiet := true,
      format := audio_quality, postprocessors := [("FFmpegExtractAudio", "mp3")],
      merge_output_format := none }
  else
    { outtmpl := output_template, noplaylist := true, no_warnings := true, quiet := true,
      format := video_quality, postprocessors := [],
      merge_output_format := some "mp4" }

/-- The subprocesses spawned along the download-and-convert path of
yt.pyw — by `MainWindow.start_download` (lines 503-542) and
`DownloadThread.run` (lines 37-57): none.  The only `subprocess` uses in
yt.pyw are the ffmpeg version check (line 208) and `xdg-open` on a
finished file (line 621); the conversion itself is delegated to the
`yt_dlp` library through the options above. -/
def download_subprocess_spawns : List (List String) := []

/-- C3 counterexample: in yt.pyw a download is performed by an in-process
`yt_dlp` library call, not by spawning yt-dlp as a subprocess. -/
theorem download_not_a_subprocess : extract_info_call.isSubprocessSpawn = false := rfl

/-- C5 counterexample: requesting an audio download configures the mp3
conversion through a yt-dlp postprocessor option while the code spawns no
subprocess at all on that path; the only direct ffmpeg invocation is the
version check. -/
theorem ffmpeg_not_spawned_for_conversion :
    (build_ydl_opts true "bestaudio/best" "bestvideo+bestaudio/best"
        "%(title)s.%(ext)s").postprocessors = [("FFmpegExtractAudio", "mp3")] ∧
    download_subprocess_spawns = [] ∧
    ffmpeg_check_command = ["ffmpeg", "-version"] :=
  ⟨rfl, rfl, rfl⟩

/-- C5 (amended): yt.pyw spawns ffmpeg directly only to check its
availability (`ffmpeg -version`); format conversion is requested through
yt-dlp options — an `FFmpegExtractAudio`/mp3 postprocessor for audio and
`merge_output_format = mp4` for video — and the download path spawns no
subprocess itself, delegating the transcoding to the `yt_dlp` library. -/
theorem ffmpeg_only_for_version_check
    (audio_quality video_quality output_template : String) :
    ffmpeg_check_command = ["ffmpeg", "-version"] ∧
    download_subprocess_spawns = [] ∧
    (build_ydl_opts true audio_quality video_quality output_template).postprocessors =
      [("FFmpegExtractAudio", "mp3")] ∧
    (build_ydl_opts false audio_quality video_quality output_template).merge_output_format =
      some "mp4" :=
  ⟨rfl, rfl, rfl, rfl⟩

end YT

namespace YTVariant

/- ---------------------------------------------------------------------
The second YT downloader variant: it drives the yt-dlp CLI through
`CommandExecutor` (subprocess.Popen on `self.command`).
--------------------------------------------------------------------- -/

/-- `common_args` of the variant's `MainWindow.start_download`. -/
def common_args : List String :=
  ["--no-warnings", "--no-playlist", "--progress-template",
   "JULES_PROGRESS:%(progress._percent_str)s", "--print", "filename"]

/-- The yt-dlp command assembled by the variant's
`MainWindow.start_download` and handed to `CommandExecutor`. -/
def download_command (is_audio : Bool)
    (audio_quality video_quality url output_template : String) : List String :=
  if is_audio then
    ["yt-dlp"] ++ common_args ++
      ["-f", audio_quality, "-x", "--audio-format", "mp3", "--audio-quality", "0",
       url, "-o", output_template]
  else
    ["yt-dlp"] ++ common_args ++
      ["-f", video_quality, "--merge-output-format", "mp4", url, "-o", output_template]

end YTVariant

/-- C3 (amended): the YT downloader of yt.pyw performs every download via
the in-process `yt_dlp` library call `YoutubeDL.extract_info`, not by
spawning yt-dlp; the CLI-driven variant, by contrast, spawns a `yt-dlp`
subprocess for every download. -/
theorem yt_downloads_via_library (is_audio : Bool)
    (audio_quality video_quality url output_template : String) :
    YT.extract_info_call = .libraryCall "yt_dlp" "YoutubeDL.extract_info" ∧
    YT.extract_info_call.isSubprocessSpawn = false ∧
    (YTVariant.download_command is_audio audio_quality video_quality url
        output_template).head? = some "yt-dlp" := by
  refine ⟨rfl, rfl, ?_⟩
  cases is_audio <;> rfl

namespace ImgurUpload

/- ---------------------------------------------------------------------
The clipboard-based Imgur uploader (`ImageUploadWorker.run`).
--------------------------------------------------------------------- -/

/-- `IMGUR_API_URL` (uploader line 27). -/
def IMGUR_API_URL : String := "https://api.imgur.com/3/image"

/-- The core operation of `ImageUploadWorker.run` (uploader lines
162-167): `requests.post(IMGUR_API_URL, headers=..., files=...)` — an
HTTP POST of the image to the Imgur API. -/
def image_upload_call : ExternalCall := .httpPost IMGUR_API_URL

end ImgurUpload

namespace Resize

/-- The core operation of `ResizeWorker.run` in resize.pyw: PIL
`Image.open`/`quantize`/`save` calls. -/
def resize_core_call : ExternalCall := .imageLibCall "PIL.Image.save"

end Resize

namespace Organize

/-- The core operation of the Organize batch script: moving each selected
file into a folder named after its extension category. -/
def organize_core_call : ExternalCall := .fileOp "move file into category folder"

end Organize

/-- The external command-line executables named by the spec. -/
def allowed_cli : List String := ["croc", "yt-dlp", "ffmpeg"]

/-- `croc --yes <code>` as spawned by `DownloadWorker.run`
(download.pyw lines 134-137; on Windows the same command line is wrapped
in `powershell -Command`). -/
def IMShareDownload.croc_download_command (code : String) : List String :=
  ["croc", "--yes", code]

/-- Modelled from the spec sentence "Each tool is a small GUI shell
wrapping either an OS file operation, an image-processing library call,
or an external command-line executable (`croc`, `yt-dlp`, `ffmpeg`)":
whether a core operation falls into one of those three categories. -/
def wraps_allowed_core : ExternalCall → Bool
  | .fileOp _ => true
  | .imageLibCall _ => true
  | .subprocessSpawn argv =>
      match argv with
      | exe :: _ => allowed_cli.contains exe
      | [] => false
  | _ => false

/-- C7 counterexample: the clipboard-based uploader's core operation is an
HTTP POST to the Imgur API — neither an OS file operation, nor an
image-library call, nor an invocation of croc, yt-dlp or ffmpeg. -/
theorem uploader_core_not_allowed :
    wraps_allowed_core ImgurUpload.image_upload_call = false := rfl

/-- Python `str.strip(chr)` for the double quote, as used on file paths by
the upload tool (`self.filepath.strip().strip('\x22')`). -/
def pyStripQuotes (s : String) : String :=
  String.mk (((s.data.dropWhile (fun c => c == '"')).reverse.dropWhile
    (fun c => c == '"')).reverse)

/-- The croc command spawned by `SendFileThread.run` of the upload tool
(non-Windows branch, lines 162-165; on Windows the same command line is
wrapped in `powershell -Command`): `croc --ignore-stdin send --hash
imohash`, plus `--code <code>` when a code is set, then the stripped file
path. -/
def IMShareUpload.croc_send_command (code filepath : String) : List String :=
  ["croc", "--ignore-stdin", "send", "--hash", "imohash"]
    ++ (if code = "" then [] else ["--code", code])
    ++ [pyStripQuotes (pyStrip filepath)]

/-- C7 (amended): the organizer (OS file moves), the resizer (PIL calls),
the iMShare download and upload tools (croc subprocesses) and the CLI YT
variant (yt-dlp subprocess) each wrap an OS file operation, an
image-processing library call, or one of the external command-line
executables croc, yt-dlp, ffmpeg — but the clipboard-based uploader's
core operation is an HTTP POST to the Imgur API, and yt.pyw performs
downloads through the in-process `yt_dlp` library call rather than by
invoking the yt-dlp command-line executable; neither of those two is in
the spec's three categories. -/
theorem tools_core_operations (code send_code filepath : String) (is_audio : Bool)
    (audio_quality video_quality url output_template : String) :
    wraps_allowed_core Organize.organize_core_call = true ∧
    wraps_allowed_core Resize.resize_core_call = true ∧
    wraps_allowed_core (.subprocessSpawn (IMShareDownload.croc_download_command code)) = true ∧
    wraps_allowed_core (.subprocessSpawn (IMShareUpload.croc_send_command
      send_code filepath)) = true ∧
    wraps_allowed_core (.subprocessSpawn (YTVariant.download_command is_audio
      audio_quality video_quality url output_template)) = true ∧
    ImgurUpload.image_upload_call = .httpPost ImgurUpload.IMGUR_API_URL ∧
    wraps_allowed_core ImgurUpload.image_upload_call = false ∧
    YT.extract_info_call = .libraryCall "yt_dlp" "YoutubeDL.extract_info" ∧
    wraps_allowed_core YT.extract_info_call = false := by
  refine ⟨rfl, rfl, rfl, rfl, ?_, rfl, rfl, rfl, rfl⟩
  cases is_audio <;> rfl
